import Mathlib

/-!
# shared-logging: severity routing and field extraction

A shallow embedding of the package `logging` (files `logger.go`,
`gorm_logger.go`, `middleware.go`).  The third-party collaborators (zap, gorm,
gin, the standard library) appear only through the calls the package makes to
them: a call of `logger.Error(msg, fields...)` is the entry
`⟨ErrorLevel, msg, fields⟩` handed to the underlying logger, a pointer to a
configuration is an address in a store of configurations, the wall clock and
the rest of the handler chain are arguments.  The response writer follows
gin's `responseWriter`: a status is recorded only while the header is
unwritten, and writing the header or the body moves the size off -1.
-/

namespace Logging

/-! ## Go values and errors -/

/-- A Go `error` value: the sentinel `gorm.ErrRecordNotFound`, any other error
without an `Unwrap` method, or an error wrapping another one. -/
inductive GoError where
  | ErrRecordNotFound
  | leaf (msg : String)
  | wrap (msg : String) (inner : GoError)
deriving DecidableEq, Repr

/-- Whether `e` or an error in its `Unwrap` chain equals `target`. -/
def GoError.chainHas : GoError → GoError → Bool
  | .wrap m inner, target => decide (GoError.wrap m inner = target) || inner.chainHas target
  | e, target => decide (e = target)

/-- The standard library's `errors.Is(err, target)` for a non-nil `target`;
`none` is the nil error. -/
def errorsIs : Option GoError → GoError → Bool
  | none, _ => false
  | some e, target => e.chainHas target

/-- A non-nil `interface{}` value, by dynamic type. -/
inductive GoValue where
  | str (s : String)
  | uint (n : Nat)
  | int (i : Int)
  | uint64 (n : Nat)
  | bool (b : Bool)
  | err (e : GoError)
deriving DecidableEq, Repr

/-- A `context.Context` as seen through `ctx.Value(key)` at string keys;
`none` is the nil interface. -/
abbrev GoContext := String → Option GoValue

/-- The standard library's `time.Since(begin)` at clock reading `now`, in
nanoseconds, saturating at the bounds of `int64` as `time.Time.Sub` does. -/
def timeSince (now begin : Int) : Int :=
  if now - begin > 9223372036854775807 then 9223372036854775807
  else if now - begin < -9223372036854775808 then -9223372036854775808
  else now - begin

/-! ## zap: fields, levels, entries -/

namespace zapcore

/-- The payload of a `zap.Field`. -/
inductive FieldValue where
  | string (s : String)
  | int (i : Int)
  | int64 (i : Int)
  | uint (n : Nat)
  | uint64 (n : Nat)
  | bool (b : Bool)
  | duration (d : Int)
  | error (e : GoError)
  | reflect (vs : List GoValue)
  | skip
deriving DecidableEq, Repr

/-- A `zap.Field`: key and typed value. -/
structure Field where
  key : String
  value : FieldValue
deriving DecidableEq, Repr

/-- The severities of `zapcore.Level` that the package logs at. -/
inductive Level where
  | DebugLevel
  | InfoLevel
  | WarnLevel
  | ErrorLevel
deriving DecidableEq, Repr

/-- One call of `logger.Debug/Info/Warn/Error(msg, fields...)`: the entry
handed to the underlying logger. -/
structure Entry where
  level : Level
  message : String
  fields : List Field
deriving DecidableEq, Repr

end zapcore

open zapcore

def zapString (key val : String) : Field := ⟨key, .string val⟩

def zapInt (key : String) (val : Int) : Field := ⟨key, .int val⟩

def zapInt64 (key : String) (val : Int) : Field := ⟨key, .int64 val⟩

def zapUint (key : String) (val : Nat) : Field := ⟨key, .uint val⟩

def zapBool (key : String) (val : Bool) : Field := ⟨key, .bool val⟩

def zapDuration (key : String) (val : Int) : Field := ⟨key, .duration val⟩

/-- The call `zap.Error(err)`: the field named "error", or a skipped field for
a nil error. -/
def zapError : Option GoError → Field
  | none => ⟨"", .skip⟩
  | some e => ⟨"error", .error e⟩

/-- The call `zap.Any(key, v)` for one dynamic value: the field constructor of
the value's dynamic type. -/
def zapAny (key : String) : GoValue → Field
  | .str s => zapString key s
  | .uint n => zapUint key n
  | .int i => zapInt key i
  | .uint64 n => ⟨key, .uint64 n⟩
  | .bool b => zapBool key b
  | .err e => ⟨key, .error e⟩

/-- The call `zap.Any(key, data)` for a variadic `[]interface{}`. -/
def zapAnySlice (key : String) (data : List GoValue) : Field := ⟨key, .reflect data⟩

/-- The logger methods: each call is one entry at the method's severity. -/
def Logger.Debug (msg : String) (fields : List Field) : Entry := ⟨.DebugLevel, msg, fields⟩

def Logger.Info (msg : String) (fields : List Field) : Entry := ⟨.InfoLevel, msg, fields⟩

def Logger.Warn (msg : String) (fields : List Field) : Entry := ⟨.WarnLevel, msg, fields⟩

def Logger.Error (msg : String) (fields : List Field) : Entry := ⟨.ErrorLevel, msg, fields⟩

/-! ## logger.go: the field helpers -/

def Fields.Error (err : Option GoError) : Field := zapError err

def Fields.RequestID (id : String) : Field := zapString "request_id" id

def Fields.UserID (id : Nat) : Field := zapUint "user_id" id

def Fields.TenantID (id : Nat) : Field := zapUint "tenant_id" id

def Fields.CorrelationID (id : String) : Field := zapString "correlation_id" id

def Fields.HTTPMethod (method : String) : Field := zapString "http_method" method

def Fields.HTTPPath (path : String) : Field := zapString "http_path" path

def Fields.HTTPStatus (status : Int) : Field := zapInt "http_status" status

def Fields.ClientIP (ip : String) : Field := zapString "client_ip" ip

def Fields.UserAgent (ua : String) : Field := zapString "user_agent" ua

/-! ## gorm_logger.go -/

/-- The constants `Silent`, `Error`, `Warn`, `Info` of `gorm.io/gorm/logger`
(`iota + 1`); a `LogLevel` is an `int`. -/
def gormlogger.Silent : Int := 1

def gormlogger.Error : Int := 2

def gormlogger.Warn : Int := 3

def gormlogger.Info : Int := 4

structure GormLoggerConfig where
  LogLevel : Int
  SlowThreshold : Int
  IgnoreRecordNotFoundError : Bool
deriving DecidableEq, Repr

def DefaultGormConfig : GormLoggerConfig :=
  { LogLevel := gormlogger.Info
    SlowThreshold := 200 * 1000000
    IgnoreRecordNotFoundError := true }

/-- The store of allocated `GormLoggerConfig` values; an address is an index,
and an allocation appends. -/
abbrev Heap := List GormLoggerConfig

/-- A `*GormLoggerConfig`: nil or an address. -/
abbrev Ptr := Option Nat

def Heap.deref (h : Heap) : Ptr → Option GormLoggerConfig
  | none => none
  | some a => h[a]?

/-- Allocation `&GormLoggerConfig{...}`: the new store and the fresh address. -/
def Heap.alloc (h : Heap) (c : GormLoggerConfig) : Heap × Ptr := (h ++ [c], some h.length)

/-- The struct `GormLogger`; `logger` identifies the `*zap.Logger`. -/
structure GormLogger where
  logger : Nat
  config : Ptr
deriving DecidableEq, Repr

def NewGormLogger (h : Heap) (logger : Nat) (config : Ptr) : Heap × GormLogger :=
  match config with
  | none =>
    let (h1, p) := h.alloc DefaultGormConfig
    (h1, { logger := logger, config := p })
  | some a => (h, { logger := logger, config := some a })

/-- The method `LogMode`; `none` is the nil dereference of `l.config`. -/
def GormLogger.LogMode (h : Heap) (l : GormLogger) (level : Int) : Option (Heap × GormLogger) :=
  match h.deref l.config with
  | none => none
  | some config =>
    let newLogger := l
    let (h1, p) := h.alloc
      { LogLevel := level
        SlowThreshold := config.SlowThreshold
        IgnoreRecordNotFoundError := config.IgnoreRecordNotFoundError }
    some (h1, { newLogger with config := p })

def GormLogger.extractContextFields (ctx : GoContext) : List Field :=
  let fields : List Field := []
  let fields :=
    match ctx "request_id" with
    | some (.str id) => fields ++ [Fields.RequestID id]
    | _ => fields
  let fields :=
    match ctx "user_id" with
    | some (.uint id) => fields ++ [Fields.UserID id]
    | _ => fields
  let fields :=
    match ctx "tenant_id" with
    | some (.uint id) => fields ++ [Fields.TenantID id]
    | _ => fields
  let fields :=
    match ctx "correlation_id" with
    | some (.str id) => fields ++ [Fields.CorrelationID id]
    | _ => fields
  fields

def GormLogger.Info (h : Heap) (l : GormLogger) (ctx : GoContext) (msg : String)
    (data : List GoValue) : Option (List Entry) :=
  match h.deref l.config with
  | none => none
  | some config =>
    if config.LogLevel ≥ gormlogger.Info then
      let fields := GormLogger.extractContextFields ctx
      let fields := fields ++ [zapAnySlice "data" data]
      some [Logger.Info ("GORM info: " ++ msg) fields]
    else some []

def GormLogger.Warn (h : Heap) (l : GormLogger) (ctx : GoContext) (msg : String)
    (data : List GoValue) : Option (List Entry) :=
  match h.deref l.config with
  | none => none
  | some config =>
    if config.LogLevel ≥ gormlogger.Warn then
      let fields := GormLogger.extractContextFields ctx
      let fields := fields ++ [zapAnySlice "data" data]
      some [Logger.Warn ("GORM warning: " ++ msg) fields]
    else some []

def GormLogger.Error (h : Heap) (l : GormLogger) (ctx : GoContext) (msg : String)
    (data : List GoValue) : Option (List Entry) :=
  match h.deref l.config with
  | none => none
  | some config =>
    if config.LogLevel ≥ gormlogger.Error then
      let fields := GormLogger.extractContextFields ctx
      let fields := fields ++ [zapAnySlice "data" data]
      some [Logger.Error ("GORM error: " ++ msg) fields]
    else some []

/-- What a call of `Trace` did: the entries handed to the logger and the
number of times the statement closure `fc` was invoked. -/
structure TraceResult where
  entries : List Entry
  fcCalls : Nat
deriving DecidableEq, Repr

/-- The method `Trace` at clock reading `now`; `none` is the nil dereference
of `l.config`. -/
def GormLogger.Trace (h : Heap) (l : GormLogger) (ctx : GoContext) (now begin : Int)
    (fc : Unit → String × Int) (err : Option GoError) : Option TraceResult :=
  match h.deref l.config with
  | none => none
  | some config =>
    if config.LogLevel ≤ gormlogger.Silent then some { entries := [], fcCalls := 0 }
    else
      let elapsed := timeSince now begin
      let (sql, rows) := fc ()
      let fields := GormLogger.extractContextFields ctx
      let fields := fields ++
        [zapDuration "elapsed" elapsed, zapInt64 "rows_affected" rows, zapString "sql" sql]
      if err ≠ none ∧ config.LogLevel ≥ gormlogger.Error ∧
          (¬ errorsIs err GoError.ErrRecordNotFound = true ∨
            ¬ config.IgnoreRecordNotFoundError = true) then
        let fields := fields ++ [Fields.Error err]
        some { entries := [Logger.Error "Database query error" fields], fcCalls := 1 }
      else if elapsed > config.SlowThreshold ∧ config.SlowThreshold ≠ 0 ∧
          config.LogLevel ≥ gormlogger.Warn then
        let fields := fields ++
          [zapDuration "slow_threshold" config.SlowThreshold, zapBool "is_slow_query" true]
        some { entries := [Logger.Warn "Slow database query detected" fields], fcCalls := 1 }
      else if config.LogLevel ≥ gormlogger.Info then
        some { entries := [Logger.Debug "Database query executed" fields], fcCalls := 1 }
      else some { entries := [], fcCalls := 1 }

/-! ## middleware.go -/

/-- A JSON object with string members, as passed to `c.JSON` in a `gin.H`. -/
abbrev JSONObject := List (String × String)

/-- One write to the response body: raw bytes of a handler, or a rendered
JSON object. -/
inductive Chunk where
  | raw (s : String)
  | json (obj : JSONObject)
deriving DecidableEq, Repr

/-- The part of a `*gin.Context` the middleware reads and writes: the
request, the per-request keys, the accumulated errors and the response writer
(`Header` is the header map, `Status` and `Size` are the fields `status` and
`size` of gin's `responseWriter`, `Size = -1` until the header is written). -/
structure Context where
  Method : String
  Path : String
  RawQuery : String
  ClientIP : String
  UserAgent : String
  GetHeader : String → String
  Keys : String → Option GoValue
  Errors : List GoError
  Header : String → Option String
  Status : Int
  Size : Int
  Body : List Chunk
  aborted : Bool

/-- The call `c.Writer.Header().Set(key, value)`. -/
def Context.HeaderSet (c : Context) (key value : String) : Context :=
  { c with Header := fun k => if k = key then some value else c.Header k }

/-- The call `c.Writer.Written()` of gin: `size != noWritten`. -/
def Context.Written (c : Context) : Bool := decide (c.Size ≠ -1)

/-- The call `c.Status(code)`, gin's `responseWriter.WriteHeader`: the status
is recorded unless the header has already been written. -/
def Context.WriteHeader (c : Context) (code : Int) : Context :=
  if code > 0 ∧ c.Status ≠ code then
    if c.Written = true then c else { c with Status := code }
  else c

/-- The call `c.Writer.WriteHeaderNow()` of gin: an unwritten header is
flushed, which sets the size to 0. -/
def Context.WriteHeaderNow (c : Context) : Context :=
  if c.Written = true then c else { c with Size := 0 }

/-- The call `c.Writer.Write(data)` of gin for a chunk of `n` bytes. -/
def Context.Write (c : Context) (n : Nat) (data : Chunk) : Context :=
  let c := c.WriteHeaderNow
  { c with Body := c.Body ++ [data], Size := c.Size + n }

/-- The call `c.Abort()`: the pending handlers are skipped. -/
def Context.Abort (c : Context) : Context := { c with aborted := true }

/-- The call `c.AbortWithStatus(code)` of gin: `c.Status(code)`,
`c.Writer.WriteHeaderNow()`, `c.Abort()`. -/
def Context.AbortWithStatus (c : Context) (code : Int) : Context :=
  ((c.WriteHeader code).WriteHeaderNow).Abort

/-- The call `c.GetString(key)`: the stored string, or "" when the key holds
no string. -/
def Context.GetString (c : Context) (key : String) : String :=
  match c.Keys key with
  | some (.str s) => s
  | _ => ""

/-- The function `bodyAllowedForStatus` of gin. -/
def bodyAllowedForStatus (status : Int) : Bool :=
  if status ≥ 100 ∧ status ≤ 199 then false
  else if status = 204 then false
  else if status = 304 then false
  else true

/-- The function `writeContentType` of gin's JSON renderer: the content type
is set unless the header map already has one. -/
def Context.writeContentType (c : Context) : Context :=
  match c.Header "Content-Type" with
  | none => c.HeaderSet "Content-Type" "application/json; charset=utf-8"
  | some _ => c

/-- The call `c.JSON(code, obj)` of gin, that is `c.Render(code, render.JSON)`:
`c.Status(code)`, then the content type and either the flushed header alone
(no body allowed for `code`) or the marshalled object written to the body;
`encodedLen obj` is the length of `json.Marshal(obj)`. -/
def Context.JSON (encodedLen : JSONObject → Nat) (c : Context) (code : Int)
    (obj : JSONObject) : Context :=
  let c := c.WriteHeader code
  if bodyAllowedForStatus code = false then
    (c.writeContentType).WriteHeaderNow
  else
    (c.writeContentType).Write (encodedLen obj) (.json obj)

/-- What a middleware call did: the resulting context, the entries it handed
to the logger, and the number of times it invoked the continuation `c.Next()`. -/
structure Run where
  ctx : Context
  entries : List Entry
  nextCalls : Nat

/-- The call `c.Next()` with the remaining handlers `next`, counted. -/
def Run.Next (r : Run) (next : Context → Context) : Run :=
  { r with ctx := next r.ctx, nextCalls := r.nextCalls + 1 }

/-- The standard log fields of `HTTPLogger` (the statements from
`fields := []zapcore.Field{...}` to the correlation-ID lookup), for the path
and raw query read before the continuation and the context `c` after it. -/
def HTTPLogger.fields (path raw : String) (latency : Int) (c : Context) : List Field :=
  let status := c.Status
  let clientIP := c.ClientIP
  let method := c.Method
  let userAgent := c.UserAgent
  let path := if raw ≠ "" then path ++ "?" ++ raw else path
  let fields : List Field :=
    [ Fields.HTTPStatus status,
      Fields.HTTPMethod method,
      Fields.HTTPPath path,
      Fields.ClientIP clientIP,
      zapDuration "latency" latency,
      Fields.UserAgent userAgent,
      zapInt "body_size" c.Size ]
  let fields :=
    match c.Keys "request_id" with
    | some (.str id) => fields ++ [Fields.RequestID id]
    | _ => fields
  let fields :=
    match c.Keys "user_id" with
    | some (.uint id) => fields ++ [Fields.UserID id]
    | _ => fields
  let fields :=
    match c.Keys "tenant_id" with
    | some (.uint id) => fields ++ [Fields.TenantID id]
    | _ => fields
  let fields :=
    if c.GetHeader "X-Correlation-ID" ≠ "" then
      fields ++ [Fields.CorrelationID (c.GetHeader "X-Correlation-ID")]
    else fields
  fields

/-- The middleware returned by `HTTPLogger`, run on context `c` with the
remaining handlers `next`; `start` and `now` are the clock readings before and
after the continuation. -/
def HTTPLogger (next : Context → Context) (start now : Int) (c : Context) : Run :=
  let r : Run := { ctx := c, entries := [], nextCalls := 0 }
  let path := r.ctx.Path
  let raw := r.ctx.RawQuery
  let r := r.Next next
  let latency := timeSince now start
  let status := r.ctx.Status
  let fields := HTTPLogger.fields path raw latency r.ctx
  if status ≥ 500 then
    if r.ctx.Errors.length > 0 then
      r.ctx.Errors.foldl
        (fun r err =>
          { r with entries := r.entries ++
              [Logger.Error "HTTP request server error" (fields ++ [Fields.Error (some err)])] })
        r
    else { r with entries := r.entries ++ [Logger.Error "HTTP request server error" fields] }
  else if status ≥ 400 then
    if r.ctx.Errors.length > 0 then
      r.ctx.Errors.foldl
        (fun r err =>
          { r with entries := r.entries ++
              [Logger.Warn "HTTP request client error" (fields ++ [Fields.Error (some err)])] })
        r
    else { r with entries := r.entries ++ [Logger.Warn "HTTP request client error" fields] }
  else { r with entries := r.entries ++ [Logger.Info "HTTP request completed" fields] }

/-- The handler that `Recovery` passes to `gin.CustomRecovery`, called with
the recovered fault value; `timestamp` is `time.Now().Format(time.RFC3339)`
and `encodedLen` the length of the marshalled response object. -/
def Recovery (encodedLen : JSONObject → Nat) (timestamp : String) (c : Context)
    (recovered : GoValue) : Run :=
  let r : Run := { ctx := c, entries := [], nextCalls := 0 }
  let fields : List Field :=
    [ zapAny "panic" recovered,
      Fields.HTTPPath r.ctx.Path,
      Fields.HTTPMethod r.ctx.Method,
      Fields.ClientIP r.ctx.ClientIP ]
  let fields :=
    match r.ctx.Keys "request_id" with
    | some (.str id) => fields ++ [Fields.RequestID id]
    | _ => fields
  let r := { r with entries := r.entries ++ [Logger.Error "HTTP request panic recovered" fields] }
  let obj : JSONObject :=
    [ ("error", "Internal server error"),
      ("request_id", r.ctx.GetString "request_id"),
      ("timestamp", timestamp) ]
  { r with ctx := r.ctx.JSON encodedLen 500 obj }

/-- The middleware returned by `CORS`, run on context `c` with the remaining
handlers `next`. -/
def CORS (next : Context → Context) (c : Context) : Run :=
  let r : Run := { ctx := c, entries := [], nextCalls := 0 }
  let r := { r with ctx := r.ctx.HeaderSet "Access-Control-Allow-Origin" "*" }
  let r := { r with ctx := r.ctx.HeaderSet "Access-Control-Allow-Credentials" "true" }
  let r := { r with ctx := r.ctx.HeaderSet "Access-Control-Allow-Headers" "Content-Type, Content-Length, Accept-Encoding, X-CSRF-Token, Authorization, accept, origin, Cache-Control, X-Requested-With, X-Request-ID, X-Correlation-ID" }
  let r := { r with ctx := r.ctx.HeaderSet "Access-Control-Allow-Methods" "POST, OPTIONS, GET, PUT, DELETE, PATCH" }
  if r.ctx.Method = "OPTIONS" then
    { r with ctx := r.ctx.AbortWithStatus 204 }
  else r.Next next

/-! ## Specification-side definitions -/

/-- The field the specification attaches for context key `k`: the value held
under `k` when it has the expected type (string for request_id and
correlation_id, unsigned integer for user_id and tenant_id), no field
otherwise. -/
def expectedContextField (ctx : GoContext) (k : String) : Option Field :=
  if k = "request_id" ∨ k = "correlation_id" then
    match ctx k with
    | some (.str s) => some ⟨k, .string s⟩
    | _ => none
  else if k = "user_id" ∨ k = "tenant_id" then
    match ctx k with
    | some (.uint n) => some ⟨k, .uint n⟩
    | _ => none
  else none

/-- The base field set of a `Trace` entry: the context fields followed by
elapsed, rows_affected and sql. -/
def traceBaseFields (ctx : GoContext) (now begin : Int) (fc : Unit → String × Int) : List Field :=
  GormLogger.extractContextFields ctx ++
    [ ⟨"elapsed", .duration (timeSince now begin)⟩,
      ⟨"rows_affected", .int64 (fc ()).2⟩,
      ⟨"sql", .string (fc ()).1⟩ ]

/-- The errors carried by a list of fields, in field order. -/
def fieldErrors (fs : List Field) : List GoError :=
  fs.filterMap fun f =>
    match f.value with
    | .error x => some x
    | _ => none

/-- The errors carried by an entry, in field order. -/
def errorsOf (e : Entry) : List GoError := fieldErrors e.fields

/-- The context after the four `Header().Set` calls of `CORS`. -/
def setCorsHeaders (c : Context) : Context :=
  (((c.HeaderSet "Access-Control-Allow-Origin" "*").HeaderSet
    "Access-Control-Allow-Credentials" "true").HeaderSet
    "Access-Control-Allow-Headers" "Content-Type, Content-Length, Accept-Encoding, X-CSRF-Token, Authorization, accept, origin, Cache-Control, X-Requested-With, X-Request-ID, X-Correlation-ID").HeaderSet
    "Access-Control-Allow-Methods" "POST, OPTIONS, GET, PUT, DELETE, PATCH"

/-- The four fixed response headers of the CORS responder. -/
def corsHeaders : List (String × String) :=
  [ ("Access-Control-Allow-Origin", "*"),
    ("Access-Control-Allow-Credentials", "true"),
    ("Access-Control-Allow-Headers", "Content-Type, Content-Length, Accept-Encoding, X-CSRF-Token, Authorization, accept, origin, Cache-Control, X-Requested-With, X-Request-ID, X-Correlation-ID"),
    ("Access-Control-Allow-Methods", "POST, OPTIONS, GET, PUT, DELETE, PATCH") ]

/-! ## Sample inputs -/

/-- A store holding the default configuration, one with the slow-query
branch disabled, and a silent one. -/
def sampleHeap : Heap :=
  [ DefaultGormConfig,
    { LogLevel := gormlogger.Info, SlowThreshold := 0, IgnoreRecordNotFoundError := false },
    { LogLevel := gormlogger.Silent, SlowThreshold := 200 * 1000000,
      IgnoreRecordNotFoundError := true } ]

def sampleAdapter : GormLogger := { logger := 7, config := some 0 }

def sampleAdapterNoSlow : GormLogger := { logger := 7, config := some 1 }

def sampleAdapterSilent : GormLogger := { logger := 7, config := some 2 }

def sampleCtx : GoContext := fun k =>
  if k = "request_id" then some (.str "abc-123")
  else if k = "user_id" then some (.uint 42)
  else none

def sampleFc : Unit → String × Int := fun _ => ("SELECT 1", 1)

def sampleRequest : Context :=
  { Method := "GET"
    Path := "/users"
    RawQuery := "page=2"
    ClientIP := "10.0.0.1"
    UserAgent := "curl"
    GetHeader := fun _ => ""
    Keys := fun k => if k = "request_id" then some (.str "abc-123") else none
    Errors := []
    Header := fun _ => none
    Status := 200
    Size := -1
    Body := []
    aborted := false }

def samplePreflight : Context := { sampleRequest with Method := "OPTIONS" }

/-- A request whose handler has already written status 200 and seven bytes
of body. -/
def sampleWritten : Context :=
  { sampleRequest with Status := 200, Size := 7, Body := [.raw "partial"] }

/-- A preflight request on which an earlier handler has already written
status 200 and seven bytes of body. -/
def sampleWrittenPreflight : Context := { sampleWritten with Method := "OPTIONS" }

/-- A stand-in for the length of `json.Marshal(obj)` at the sample inputs. -/
def sampleEncodedLen : JSONObject → Nat := fun obj =>
  2 + (obj.map fun kv => kv.1.length + kv.2.length + 6).sum

/-- Remaining handlers that fail with status 503 and two recorded errors. -/
def sampleFailingHandlers : Context → Context := fun c =>
  { c with Status := 503, Errors := [.leaf "db down", .leaf "cache down"] }

/-! ## Lemmas -/

theorem Heap.deref_alloc_old (h : Heap) (c c0 : GormLoggerConfig) (p : Ptr)
    (hp : h.deref p = some c0) : (h.alloc c).1.deref p = some c0 := by
  cases p with
  | none => simp [Heap.deref] at hp
  | some a =>
    simp only [Heap.deref, Heap.alloc] at hp ⊢
    have hlt : a < h.length := by
      by_contra hge
      rw [List.getElem?_eq_none (by omega)] at hp
      exact Option.noConfusion hp
    rw [List.getElem?_append_left hlt]
    exact hp

theorem Heap.deref_alloc_new (h : Heap) (c : GormLoggerConfig) :
    (h.alloc c).1.deref (h.alloc c).2 = some c := by
  simp [Heap.deref, Heap.alloc]

theorem Heap.alloc_fresh (h : Heap) (c c0 : GormLoggerConfig) (p : Ptr)
    (hp : h.deref p = some c0) : (h.alloc c).2 ≠ p := by
  cases p with
  | none => simp [Heap.deref] at hp
  | some a =>
    simp only [Heap.deref, Heap.alloc] at hp ⊢
    intro heq
    have : a = h.length := by simpa using heq.symm
    subst this
    simp at hp

/-- An adapter built by `NewGormLogger` has an allocated configuration: the
default one for a nil argument, the given one otherwise. -/
theorem NewGormLogger_allocated (h : Heap) (logger : Nat) (config : Ptr)
    (hv : config = none ∨ ∃ c, h.deref config = some c) :
    ∃ c, (NewGormLogger h logger config).1.deref (NewGormLogger h logger config).2.config =
        some c ∧
      (config = none → c = DefaultGormConfig) ∧
      (NewGormLogger h logger config).2.logger = logger := by
  cases config with
  | none => exact ⟨DefaultGormConfig, Heap.deref_alloc_new h DefaultGormConfig, fun _ => rfl, rfl⟩
  | some a =>
    rcases hv with hv | ⟨c, hc⟩
    · exact Option.noConfusion hv
    · exact ⟨c, hc, fun hn => Option.noConfusion hn, rfl⟩

theorem extractContextFields_eq (ctx : GoContext) :
    GormLogger.extractContextFields ctx =
      (expectedContextField ctx "request_id").toList ++
      (expectedContextField ctx "user_id").toList ++
      (expectedContextField ctx "tenant_id").toList ++
      (expectedContextField ctx "correlation_id").toList := by
  simp only [GormLogger.extractContextFields, expectedContextField, Fields.RequestID,
    Fields.UserID, Fields.TenantID, Fields.CorrelationID, zapString, zapUint]
  simp only [show ("user_id" = "request_id" ∨ "user_id" = "correlation_id") = False by decide,
    show ("tenant_id" = "request_id" ∨ "tenant_id" = "correlation_id") = False by decide,
    true_or, or_true, if_true, if_false]
  split <;> split <;> split <;> split <;> simp_all

theorem extractContextFields_keys (ctx : GoContext) (f : Field)
    (hf : f ∈ GormLogger.extractContextFields ctx) :
    (f.key = "request_id" ∨ f.key = "user_id" ∨ f.key = "tenant_id" ∨
      f.key = "correlation_id") ∧ expectedContextField ctx f.key = some f := by
  rw [extractContextFields_eq] at hf
  simp only [List.mem_append, Option.mem_toList, Option.mem_def] at hf
  have key : ∀ k, expectedContextField ctx k = some f → f.key = k := by
    intro k hk
    simp only [expectedContextField] at hk
    split_ifs at hk
    · split at hk
      · cases hk; rfl
      · cases hk
    · split at hk
      · cases hk; rfl
      · cases hk
  rcases hf with ((h1 | h1) | h1) | h1 <;> have hk := key _ h1 <;> rw [hk] <;> simp [h1]

/-- The shape of every `Trace` call on an allocated configuration: the early
return, then the three-way routing on the base fields. -/
theorem Trace_eq (h : Heap) (l : GormLogger) (cfg : GormLoggerConfig) (ctx : GoContext)
    (now begin : Int) (fc : Unit → String × Int) (err : Option GoError)
    (hc : h.deref l.config = some cfg) :
    GormLogger.Trace h l ctx now begin fc err =
      some (
        if cfg.LogLevel ≤ 1 then { entries := [], fcCalls := 0 }
        else if err ≠ none ∧ 2 ≤ cfg.LogLevel ∧
            ¬ (errorsIs err GoError.ErrRecordNotFound = true ∧
                cfg.IgnoreRecordNotFoundError = true) then
          { entries := [⟨.ErrorLevel, "Database query error",
              traceBaseFields ctx now begin fc ++ [zapError err]⟩], fcCalls := 1 }
        else if timeSince now begin > cfg.SlowThreshold ∧ cfg.SlowThreshold ≠ 0 ∧
            3 ≤ cfg.LogLevel then
          { entries := [⟨.WarnLevel, "Slow database query detected",
              traceBaseFields ctx now begin fc ++
                [⟨"slow_threshold", .duration cfg.SlowThreshold⟩,
                 ⟨"is_slow_query", .bool true⟩]⟩], fcCalls := 1 }
        else if 4 ≤ cfg.LogLevel then
          { entries := [⟨.DebugLevel, "Database query executed",
              traceBaseFields ctx now begin fc⟩], fcCalls := 1 }
        else { entries := [], fcCalls := 1 }) := by
  simp only [GormLogger.Trace, hc, traceBaseFields, gormlogger.Silent, gormlogger.Error,
    gormlogger.Warn, gormlogger.Info, Logger.Error, Logger.Warn, Logger.Debug, Fields.Error,
    zapDuration, zapInt64, zapString, zapBool, ge_iff_le, not_and_or]
  split_ifs <;> rfl

theorem foldl_log_entries (mk : GoError → Entry) (errs : List GoError) (r : Run) :
    errs.foldl (fun r err => { r with entries := r.entries ++ [mk err] }) r =
      { r with entries := r.entries ++ errs.map mk } := by
  induction errs generalizing r with
  | nil => simp
  | cons e rest ih => simp [List.foldl_cons, ih, List.append_assoc]

theorem HTTPLogger.fields_no_error (path raw : String) (latency : Int) (c : Context) :
    fieldErrors (HTTPLogger.fields path raw latency c) = [] := by
  simp only [HTTPLogger.fields, Fields.HTTPStatus, Fields.HTTPMethod, Fields.HTTPPath,
    Fields.ClientIP, Fields.UserAgent, Fields.RequestID, Fields.UserID, Fields.TenantID,
    Fields.CorrelationID, zapString, zapInt, zapUint, zapDuration]
  split <;> split <;> split <;> split <;> simp [fieldErrors]

theorem CORS_eq (next : Context → Context) (c : Context) :
    CORS next c =
      if c.Method = "OPTIONS" then
        { ctx := (setCorsHeaders c).AbortWithStatus 204, entries := [], nextCalls := 0 }
      else { ctx := next (setCorsHeaders c), entries := [], nextCalls := 1 } := by
  simp only [CORS, Run.Next, setCorsHeaders, Context.HeaderSet]

theorem setCorsHeaders_lookup (c : Context) :
    ∀ kv ∈ corsHeaders, (setCorsHeaders c).Header kv.1 = some kv.2 := by
  intro kv hkv
  simp only [corsHeaders, List.mem_cons, List.mem_singleton, List.not_mem_nil, or_false] at hkv
  rcases hkv with rfl | rfl | rfl | rfl <;> simp [setCorsHeaders, Context.HeaderSet]

/-- The response after `c.JSON(500, obj)`: the object is appended to the
body; an unwritten response gets status 500, a written one keeps its status. -/
theorem Context.JSON_500 (encodedLen : JSONObject → Nat) (c : Context) (obj : JSONObject) :
    (c.JSON encodedLen 500 obj).Body = c.Body ++ [.json obj] ∧
    (c.JSON encodedLen 500 obj).Status = (if c.Size = -1 then 500 else c.Status) ∧
    (c.JSON encodedLen 500 obj).Size =
      (if c.Size = -1 then 0 else c.Size) + (encodedLen obj : Int) ∧
    (c.JSON encodedLen 500 obj).Header =
      (match c.Header "Content-Type" with
        | none => fun k =>
            if k = "Content-Type" then some "application/json; charset=utf-8" else c.Header k
        | some _ => c.Header) ∧
    (c.JSON encodedLen 500 obj).aborted = c.aborted := by
  have hb : bodyAllowedForStatus 500 = true := by decide
  simp only [Context.JSON, hb, Context.Write, Context.WriteHeaderNow, Context.writeContentType,
    Context.WriteHeader, Context.Written, Context.HeaderSet]
  by_cases hs : c.Size = -1 <;> by_cases h5 : c.Status = 500 <;>
    cases hct : c.Header "Content-Type" <;> simp [hs, h5, hct]

/-- The response after `c.AbortWithStatus(204)`: the pending handlers are
skipped and nothing is written to the body; an unwritten response gets status
204 and size 0, a written one keeps its status and size. -/
theorem Context.AbortWithStatus_204 (c : Context) :
    (c.AbortWithStatus 204).aborted = true ∧
    (c.AbortWithStatus 204).Body = c.Body ∧
    (c.AbortWithStatus 204).Header = c.Header ∧
    (c.AbortWithStatus 204).Status = (if c.Size = -1 then 204 else c.Status) ∧
    (c.AbortWithStatus 204).Size = (if c.Size = -1 then 0 else c.Size) := by
  simp only [Context.AbortWithStatus, Context.Abort, Context.WriteHeaderNow,
    Context.WriteHeader, Context.Written]
  by_cases hs : c.Size = -1 <;> by_cases h5 : c.Status = 204 <;> simp [hs, h5]

/-! ## The query log adapter: `Trace` routing -/

/-- C1: a call of `Trace` on any context, clock, statement closure, error and
configuration hands an error-severity entry to the logger if and only if the
error is non-nil, the level is at least `Error`, and it is not the case that
the error is record-not-found while `IgnoreRecordNotFoundError` is set; when it
does, that entry is the only one of the call, its message is "Database query
error", and its fields are the context fields, elapsed, rows_affected, sql and
the error.  The elapsed duration and `SlowThreshold` play no part in the
condition. -/
theorem C1_trace_error_branch (h : Heap) (l : GormLogger) (cfg : GormLoggerConfig)
    (ctx : GoContext) (now begin : Int) (fc : Unit → String × Int) (err : Option GoError)
    (hc : h.deref l.config = some cfg) :
    ∃ r, GormLogger.Trace h l ctx now begin fc err = some r ∧
      ((∃ e ∈ r.entries, e.level = Level.ErrorLevel) ↔
        (err ≠ none ∧ cfg.LogLevel ≥ gormlogger.Error ∧
          ¬ (errorsIs err GoError.ErrRecordNotFound = true ∧
              cfg.IgnoreRecordNotFoundError = true))) ∧
      ((∃ e ∈ r.entries, e.level = Level.ErrorLevel) →
        ∃ e0, err = some e0 ∧
          r.entries = [⟨Level.ErrorLevel, "Database query error",
            GormLogger.extractContextFields ctx ++
              [ ⟨"elapsed", .duration (timeSince now begin)⟩,
                ⟨"rows_affected", .int64 (fc ()).2⟩,
                ⟨"sql", .string (fc ()).1⟩,
                ⟨"error", .error e0⟩ ]⟩]) := by
  refine ⟨_, Trace_eq h l cfg ctx now begin fc err hc, ?_⟩
  simp only [gormlogger.Error, ge_iff_le]
  by_cases h1 : cfg.LogLevel ≤ 1
  · have h2 : ¬ (2 : Int) ≤ cfg.LogLevel := by omega
    simp [h1, h2]
  · by_cases hE : err ≠ none ∧ 2 ≤ cfg.LogLevel ∧
        ¬ (errorsIs err GoError.ErrRecordNotFound = true ∧
            cfg.IgnoreRecordNotFoundError = true)
    · obtain ⟨e0, he0⟩ := Option.ne_none_iff_exists.mp hE.1
      subst he0
      simp only [h1, hE, if_true, if_false]
      simp [traceBaseFields, zapError]
    · simp only [h1, hE, if_false]
      constructor
      · constructor
        · rintro ⟨e, he, hl⟩
          split_ifs at he <;> simp at he <;> subst he <;> cases hl
        · intro hf; exact absurd hf (by simp)
      · rintro ⟨e, he, hl⟩
        split_ifs at he <;> simp at he <;> subst he <;> cases hl

/-- A failing query with a plain error at the default configuration. -/
theorem C1_trace_error_branch_witness :
    sampleHeap.deref sampleAdapter.config = some DefaultGormConfig ∧
    ∃ r, GormLogger.Trace sampleHeap sampleAdapter sampleCtx 5 0 sampleFc
        (some (.leaf "boom")) = some r ∧
      ((∃ e ∈ r.entries, e.level = Level.ErrorLevel) ↔
        ((some (GoError.leaf "boom") : Option GoError) ≠ none ∧
          DefaultGormConfig.LogLevel ≥ gormlogger.Error ∧
          ¬ (errorsIs (some (.leaf "boom")) GoError.ErrRecordNotFound = true ∧
              DefaultGormConfig.IgnoreRecordNotFoundError = true))) ∧
      ((∃ e ∈ r.entries, e.level = Level.ErrorLevel) →
        ∃ e0, (some (GoError.leaf "boom") : Option GoError) = some e0 ∧
          r.entries = [⟨Level.ErrorLevel, "Database query error",
            GormLogger.extractContextFields sampleCtx ++
              [ ⟨"elapsed", .duration (timeSince 5 0)⟩,
                ⟨"rows_affected", .int64 (sampleFc ()).2⟩,
                ⟨"sql", .string (sampleFc ()).1⟩,
                ⟨"error", .error e0⟩ ]⟩]) :=
  ⟨rfl, C1_trace_error_branch sampleHeap sampleAdapter DefaultGormConfig sampleCtx 5 0 sampleFc
    (some (.leaf "boom")) rfl⟩

/-- C2: a call of `Trace` with no error, `SlowThreshold > 0`, an elapsed
duration strictly above `SlowThreshold` and a level of at least `Warn` hands
exactly one entry to the logger, at warn severity, whose fields are the base
fields followed by slow_threshold (the configured threshold) and
is_slow_query = true; and when `SlowThreshold` is zero no call of `Trace`
hands over a warn-severity entry, whatever the elapsed duration and error. -/
theorem C2_trace_slow_branch (h : Heap) (l : GormLogger) (cfg : GormLoggerConfig)
    (ctx : GoContext) (now begin : Int) (fc : Unit → String × Int)
    (hc : h.deref l.config = some cfg) :
    (cfg.SlowThreshold > 0 → timeSince now begin > cfg.SlowThreshold →
      cfg.LogLevel ≥ gormlogger.Warn →
      GormLogger.Trace h l ctx now begin fc none =
        some { entries := [⟨Level.WarnLevel, "Slow database query detected",
                 GormLogger.extractContextFields ctx ++
                   [ ⟨"elapsed", .duration (timeSince now begin)⟩,
                     ⟨"rows_affected", .int64 (fc ()).2⟩,
                     ⟨"sql", .string (fc ()).1⟩,
                     ⟨"slow_threshold", .duration cfg.SlowThreshold⟩,
                     ⟨"is_slow_query", .bool true⟩ ]⟩],
               fcCalls := 1 }) ∧
    (cfg.SlowThreshold = 0 → ∀ err : Option GoError,
      ∃ r, GormLogger.Trace h l ctx now begin fc err = some r ∧
        ∀ e ∈ r.entries, e.level ≠ Level.WarnLevel) := by
  constructor
  · intro hpos hslow hlvl
    rw [Trace_eq h l cfg ctx now begin fc none hc]
    simp only [gormlogger.Warn, ge_iff_le] at hlvl
    have h1 : ¬ cfg.LogLevel ≤ 1 := by omega
    have h0 : cfg.SlowThreshold ≠ 0 := by omega
    simp [h1, hslow, h0, hlvl, traceBaseFields]
  · intro hz err
    refine ⟨_, Trace_eq h l cfg ctx now begin fc err hc, ?_⟩
    intro e he
    simp only [hz, ne_eq, not_true_eq_false, false_and, and_false, if_false] at he
    split_ifs at he <;> simp at he <;> subst he <;> simp

/-- A 300 ms query at the default 200 ms threshold, and the same query at a
zero threshold. -/
theorem C2_trace_slow_branch_witness :
    (sampleHeap.deref sampleAdapter.config = some DefaultGormConfig ∧
      DefaultGormConfig.SlowThreshold > 0 ∧
      timeSince 300000000 0 > DefaultGormConfig.SlowThreshold ∧
      DefaultGormConfig.LogLevel ≥ gormlogger.Warn ∧
      GormLogger.Trace sampleHeap sampleAdapter sampleCtx 300000000 0 sampleFc none =
        some { entries := [⟨Level.WarnLevel, "Slow database query detected",
                 GormLogger.extractContextFields sampleCtx ++
                   [ ⟨"elapsed", .duration (timeSince 300000000 0)⟩,
                     ⟨"rows_affected", .int64 (sampleFc ()).2⟩,
                     ⟨"sql", .string (sampleFc ()).1⟩,
                     ⟨"slow_threshold", .duration DefaultGormConfig.SlowThreshold⟩,
                     ⟨"is_slow_query", .bool true⟩ ]⟩],
               fcCalls := 1 }) ∧
    (sampleHeap.deref sampleAdapterNoSlow.config =
        some { LogLevel := gormlogger.Info, SlowThreshold := 0,
               IgnoreRecordNotFoundError := false } ∧
      ∀ err : Option GoError,
        ∃ r, GormLogger.Trace sampleHeap sampleAdapterNoSlow sampleCtx 300000000 0 sampleFc
            err = some r ∧
          ∀ e ∈ r.entries, e.level ≠ Level.WarnLevel) :=
  ⟨⟨rfl, by decide, by decide, by decide,
      (C2_trace_slow_branch sampleHeap sampleAdapter DefaultGormConfig sampleCtx 300000000 0
        sampleFc rfl).1 (by decide) (by decide) (by decide)⟩,
    ⟨rfl,
      (C2_trace_slow_branch sampleHeap sampleAdapterNoSlow
        { LogLevel := gormlogger.Info, SlowThreshold := 0, IgnoreRecordNotFoundError := false }
        sampleCtx 300000000 0 sampleFc rfl).2 rfl⟩⟩

/-- C3: a call of `Trace` whose error satisfies `errors.Is(err,
gorm.ErrRecordNotFound)` while `IgnoreRecordNotFoundError` is set hands over no
error-severity entry and does exactly what the same call does with a nil
error: the slow-query warn entry if the slow branch applies, else the debug
entry if the level is at least `Info`, else nothing. -/
theorem C3_trace_not_found_suppressed (h : Heap) (l : GormLogger) (cfg : GormLoggerConfig)
    (ctx : GoContext) (now begin : Int) (fc : Unit → String × Int) (err : Option GoError)
    (hc : h.deref l.config = some cfg)
    (hnf : errorsIs err GoError.ErrRecordNotFound = true)
    (hig : cfg.IgnoreRecordNotFoundError = true) :
    GormLogger.Trace h l ctx now begin fc err = GormLogger.Trace h l ctx now begin fc none ∧
    ∃ r, GormLogger.Trace h l ctx now begin fc err = some r ∧
      (∀ e ∈ r.entries, e.level ≠ Level.ErrorLevel) ∧
      r.entries =
        if timeSince now begin > cfg.SlowThreshold ∧ cfg.SlowThreshold ≠ 0 ∧
            cfg.LogLevel ≥ gormlogger.Warn then
          [⟨Level.WarnLevel, "Slow database query detected",
            traceBaseFields ctx now begin fc ++
              [ ⟨"slow_threshold", .duration cfg.SlowThreshold⟩,
                ⟨"is_slow_query", .bool true⟩ ]⟩]
        else if cfg.LogLevel ≥ gormlogger.Info then
          [⟨Level.DebugLevel, "Database query executed", traceBaseFields ctx now begin fc⟩]
        else [] := by
  have hE : ¬ (err ≠ none ∧ 2 ≤ cfg.LogLevel ∧
      ¬ (errorsIs err GoError.ErrRecordNotFound = true ∧
          cfg.IgnoreRecordNotFoundError = true)) := by
    rintro ⟨_, _, hn⟩
    exact hn ⟨hnf, hig⟩
  refine ⟨?_, _, Trace_eq h l cfg ctx now begin fc err hc, ?_, ?_⟩
  · rw [Trace_eq h l cfg ctx now begin fc err hc, Trace_eq h l cfg ctx now begin fc none hc]
    simp only [hE, if_false]
    simp
  · intro e he
    simp only [hE, if_false] at he
    split_ifs at he <;> simp at he <;> subst he <;> simp
  · simp only [hE, if_false, gormlogger.Warn, gormlogger.Info, ge_iff_le]
    by_cases h1 : cfg.LogLevel ≤ 1
    · have h3 : ¬ (3 : Int) ≤ cfg.LogLevel := by omega
      have h4 : ¬ (4 : Int) ≤ cfg.LogLevel := by omega
      simp [h1, h3, h4]
    · simp only [h1, if_false]
      split_ifs <;> rfl

/-- A wrapped record-not-found error at the default configuration, which sets
the ignore flag. -/
theorem C3_trace_not_found_suppressed_witness :
    sampleHeap.deref sampleAdapter.config = some DefaultGormConfig ∧
    errorsIs (some (.wrap "find user" .ErrRecordNotFound)) GoError.ErrRecordNotFound = true ∧
    DefaultGormConfig.IgnoreRecordNotFoundError = true ∧
    GormLogger.Trace sampleHeap sampleAdapter sampleCtx 5 0 sampleFc
        (some (.wrap "find user" .ErrRecordNotFound)) =
      GormLogger.Trace sampleHeap sampleAdapter sampleCtx 5 0 sampleFc none ∧
    ∃ r, GormLogger.Trace sampleHeap sampleAdapter sampleCtx 5 0 sampleFc
        (some (.wrap "find user" .ErrRecordNotFound)) = some r ∧
      (∀ e ∈ r.entries, e.level ≠ Level.ErrorLevel) ∧
      r.entries =
        if timeSince 5 0 > DefaultGormConfig.SlowThreshold ∧
            DefaultGormConfig.SlowThreshold ≠ 0 ∧
            DefaultGormConfig.LogLevel ≥ gormlogger.Warn then
          [⟨Level.WarnLevel, "Slow database query detected",
            traceBaseFields sampleCtx 5 0 sampleFc ++
              [ ⟨"slow_threshold", .duration DefaultGormConfig.SlowThreshold⟩,
                ⟨"is_slow_query", .bool true⟩ ]⟩]
        else if DefaultGormConfig.LogLevel ≥ gormlogger.Info then
          [⟨Level.DebugLevel, "Database query executed", traceBaseFields sampleCtx 5 0 sampleFc⟩]
        else [] :=
  ⟨rfl, by decide, rfl,
    C3_trace_not_found_suppressed sampleHeap sampleAdapter DefaultGormConfig sampleCtx 5 0
      sampleFc (some (.wrap "find user" .ErrRecordNotFound)) rfl (by decide) rfl⟩

/-- C7: a call of `Trace` at a level of at least `Info` in which the error
branch is not taken (nil error, or record-not-found with
`IgnoreRecordNotFoundError` set) and the slow branch is not taken
(`SlowThreshold` zero or not exceeded) hands exactly one entry to the logger,
at debug severity, with message "Database query executed" and the base fields
only: the context fields, elapsed, rows_affected and sql, and no error,
slow_threshold or is_slow_query field. -/
theorem C7_trace_debug_branch (h : Heap) (l : GormLogger) (cfg : GormLoggerConfig)
    (ctx : GoContext) (now begin : Int) (fc : Unit → String × Int) (err : Option GoError)
    (hc : h.deref l.config = some cfg)
    (hlvl : cfg.LogLevel ≥ gormlogger.Info)
    (herr : err = none ∨ (errorsIs err GoError.ErrRecordNotFound = true ∧
      cfg.IgnoreRecordNotFoundError = true))
    (hslow : cfg.SlowThreshold = 0 ∨ ¬ timeSince now begin > cfg.SlowThreshold) :
    GormLogger.Trace h l ctx now begin fc err =
      some { entries := [⟨Level.DebugLevel, "Database query executed",
               GormLogger.extractContextFields ctx ++
                 [ ⟨"elapsed", .duration (timeSince now begin)⟩,
                   ⟨"rows_affected", .int64 (fc ()).2⟩,
                   ⟨"sql", .string (fc ()).1⟩ ]⟩],
             fcCalls := 1 } ∧
    ∀ f ∈ GormLogger.extractContextFields ctx ++
        [ (⟨"elapsed", .duration (timeSince now begin)⟩ : Field),
          ⟨"rows_affected", .int64 (fc ()).2⟩,
          ⟨"sql", .string (fc ()).1⟩ ],
      f.key ≠ "error" ∧ f.key ≠ "slow_threshold" ∧ f.key ≠ "is_slow_query" := by
  constructor
  · rw [Trace_eq h l cfg ctx now begin fc err hc]
    simp only [gormlogger.Info, ge_iff_le] at hlvl
    have h1 : ¬ cfg.LogLevel ≤ 1 := by omega
    have hE : ¬ (err ≠ none ∧ 2 ≤ cfg.LogLevel ∧
        ¬ (errorsIs err GoError.ErrRecordNotFound = true ∧
            cfg.IgnoreRecordNotFoundError = true)) := by
      rintro ⟨hne, _, hn⟩
      rcases herr with h0 | h0
      · exact hne h0
      · exact hn h0
    have hS : ¬ (timeSince now begin > cfg.SlowThreshold ∧ cfg.SlowThreshold ≠ 0 ∧
        3 ≤ cfg.LogLevel) := by
      rintro ⟨hgt, hne, _⟩
      rcases hslow with h0 | h0
      · exact hne h0
      · exact h0 hgt
    simp only [h1, hE, hS, hlvl, if_true, if_false, traceBaseFields]
  · intro f hf
    rw [List.mem_append] at hf
    rcases hf with hf | hf
    · obtain ⟨hk, _⟩ := extractContextFields_keys ctx f hf
      rcases hk with hk | hk | hk | hk <;> rw [hk] <;> decide
    · simp only [List.mem_cons, List.mem_singleton, List.not_mem_nil, or_false] at hf
      rcases hf with hf | hf | hf <;> subst hf <;> simp only [] <;> decide

/-- A fast query without error at the default configuration. -/
theorem C7_trace_debug_branch_witness :
    sampleHeap.deref sampleAdapter.config = some DefaultGormConfig ∧
    DefaultGormConfig.LogLevel ≥ gormlogger.Info ∧
    ((none : Option GoError) = none ∨
      (errorsIs none GoError.ErrRecordNotFound = true ∧
        DefaultGormConfig.IgnoreRecordNotFoundError = true)) ∧
    (DefaultGormConfig.SlowThreshold = 0 ∨ ¬ timeSince 5 0 > DefaultGormConfig.SlowThreshold) ∧
    GormLogger.Trace sampleHeap sampleAdapter sampleCtx 5 0 sampleFc none =
      some { entries := [⟨Level.DebugLevel, "Database query executed",
               GormLogger.extractContextFields sampleCtx ++
                 [ ⟨"elapsed", .duration (timeSince 5 0)⟩,
                   ⟨"rows_affected", .int64 (sampleFc ()).2⟩,
                   ⟨"sql", .string (sampleFc ()).1⟩ ]⟩],
             fcCalls := 1 } ∧
    ∀ f ∈ GormLogger.extractContextFields sampleCtx ++
        [ (⟨"elapsed", .duration (timeSince 5 0)⟩ : Field),
          ⟨"rows_affected", .int64 (sampleFc ()).2⟩,
          ⟨"sql", .string (sampleFc ()).1⟩ ],
      f.key ≠ "error" ∧ f.key ≠ "slow_threshold" ∧ f.key ≠ "is_slow_query" :=
  ⟨rfl, by decide, Or.inl rfl, Or.inr (by decide),
    C7_trace_debug_branch sampleHeap sampleAdapter DefaultGormConfig sampleCtx 5 0 sampleFc none
      rfl (by decide) (Or.inl rfl) (Or.inr (by decide))⟩

/-! ## The query log adapter: level gating, `LogMode`, context fields -/

/-- C5: with `Silent < Error < Warn < Info`, each of the free-form operations
`Info`, `Warn`, `Error` hands exactly one entry to the logger, at its own
severity, if and only if the configured level is at least `Info`, `Warn`,
`Error` respectively, and hands over nothing otherwise; at a level at or below
`Silent` the three operations hand over nothing and `Trace` returns with no
entry and without invoking the statement closure. -/
theorem C5_level_gating (h : Heap) (l : GormLogger) (cfg : GormLoggerConfig)
    (ctx : GoContext) (msg : String) (data : List GoValue)
    (hc : h.deref l.config = some cfg) :
    (gormlogger.Silent < gormlogger.Error ∧ gormlogger.Error < gormlogger.Warn ∧
      gormlogger.Warn < gormlogger.Info) ∧
    (∃ es, GormLogger.Info h l ctx msg data = some es ∧
      ((∃ e, es = [e] ∧ e.level = Level.InfoLevel) ↔ cfg.LogLevel ≥ gormlogger.Info) ∧
      (es = [] ↔ ¬ cfg.LogLevel ≥ gormlogger.Info)) ∧
    (∃ es, GormLogger.Warn h l ctx msg data = some es ∧
      ((∃ e, es = [e] ∧ e.level = Level.WarnLevel) ↔ cfg.LogLevel ≥ gormlogger.Warn) ∧
      (es = [] ↔ ¬ cfg.LogLevel ≥ gormlogger.Warn)) ∧
    (∃ es, GormLogger.Error h l ctx msg data = some es ∧
      ((∃ e, es = [e] ∧ e.level = Level.ErrorLevel) ↔ cfg.LogLevel ≥ gormlogger.Error) ∧
      (es = [] ↔ ¬ cfg.LogLevel ≥ gormlogger.Error)) ∧
    (cfg.LogLevel ≤ gormlogger.Silent →
      GormLogger.Info h l ctx msg data = some [] ∧
      GormLogger.Warn h l ctx msg data = some [] ∧
      GormLogger.Error h l ctx msg data = some [] ∧
      ∀ (now begin : Int) (fc : Unit → String × Int) (err : Option GoError),
        GormLogger.Trace h l ctx now begin fc err = some { entries := [], fcCalls := 0 }) := by
  have hI : GormLogger.Info h l ctx msg data = some
      (if cfg.LogLevel ≥ gormlogger.Info then
        [Logger.Info ("GORM info: " ++ msg)
          (GormLogger.extractContextFields ctx ++ [zapAnySlice "data" data])]
      else []) := by
    simp only [GormLogger.Info, hc]
    split_ifs <;> rfl
  have hW : GormLogger.Warn h l ctx msg data = some
      (if cfg.LogLevel ≥ gormlogger.Warn then
        [Logger.Warn ("GORM warning: " ++ msg)
          (GormLogger.extractContextFields ctx ++ [zapAnySlice "data" data])]
      else []) := by
    simp only [GormLogger.Warn, hc]
    split_ifs <;> rfl
  have hE : GormLogger.Error h l ctx msg data = some
      (if cfg.LogLevel ≥ gormlogger.Error then
        [Logger.Error ("GORM error: " ++ msg)
          (GormLogger.extractContextFields ctx ++ [zapAnySlice "data" data])]
      else []) := by
    simp only [GormLogger.Error, hc]
    split_ifs <;> rfl
  refine ⟨by decide, ⟨_, hI, ?_⟩, ⟨_, hW, ?_⟩, ⟨_, hE, ?_⟩, ?_⟩
  · split_ifs with hl <;> simp [hl, Logger.Info]
  · split_ifs with hl <;> simp [hl, Logger.Warn]
  · split_ifs with hl <;> simp [hl, Logger.Error]
  · intro hs
    simp only [gormlogger.Silent] at hs
    have h2 : ¬ cfg.LogLevel ≥ gormlogger.Error := by simp only [gormlogger.Error]; omega
    have h3 : ¬ cfg.LogLevel ≥ gormlogger.Warn := by simp only [gormlogger.Warn]; omega
    have h4 : ¬ cfg.LogLevel ≥ gormlogger.Info := by simp only [gormlogger.Info]; omega
    refine ⟨by rw [hI, if_neg h4], by rw [hW, if_neg h3], by rw [hE, if_neg h2], ?_⟩
    intro now begin fc err
    rw [Trace_eq h l cfg ctx now begin fc err hc]
    simp [hs]

/-- The silent adapter of the sample store. -/
theorem C5_level_gating_witness :
    sampleHeap.deref sampleAdapterSilent.config =
      some { LogLevel := gormlogger.Silent, SlowThreshold := 200 * 1000000,
             IgnoreRecordNotFoundError := true } ∧
    GormLogger.Info sampleHeap sampleAdapterSilent sampleCtx "m" [] = some [] ∧
    GormLogger.Warn sampleHeap sampleAdapterSilent sampleCtx "m" [] = some [] ∧
    GormLogger.Error sampleHeap sampleAdapterSilent sampleCtx "m" [] = some [] ∧
    ∀ (now begin : Int) (fc : Unit → String × Int) (err : Option GoError),
      GormLogger.Trace sampleHeap sampleAdapterSilent sampleCtx now begin fc err =
        some { entries := [], fcCalls := 0 } :=
  ⟨rfl,
    (C5_level_gating sampleHeap sampleAdapterSilent
      { LogLevel := gormlogger.Silent, SlowThreshold := 200 * 1000000,
        IgnoreRecordNotFoundError := true } sampleCtx "m" [] rfl).2.2.2.2 (by decide)⟩

/-- C6: for every adapter `a` with an allocated configuration and every
level `v`, `a.LogMode(v)` returns a new adapter whose configuration is a fresh
one with level `v` and the `SlowThreshold` and `IgnoreRecordNotFoundError` of
`a`, and which uses the same underlying logger; no configuration that existed
before the call is changed, that of `a` in particular, and `Info`, `Warn`,
`Error` and `Trace` on `a` do afterwards what they did before. -/
theorem C6_logmode_frame (h : Heap) (a : GormLogger) (cfg : GormLoggerConfig) (v : Int)
    (hc : h.deref a.config = some cfg) :
    ∃ h1 b, GormLogger.LogMode h a v = some (h1, b) ∧
      h1.deref b.config = some
        { LogLevel := v
          SlowThreshold := cfg.SlowThreshold
          IgnoreRecordNotFoundError := cfg.IgnoreRecordNotFoundError } ∧
      b.logger = a.logger ∧
      b.config ≠ a.config ∧
      h1.deref a.config = some cfg ∧
      (∀ p c, h.deref p = some c → h1.deref p = some c) ∧
      (∀ (ctx : GoContext) (msg : String) (data : List GoValue),
        GormLogger.Info h1 a ctx msg data = GormLogger.Info h a ctx msg data ∧
        GormLogger.Warn h1 a ctx msg data = GormLogger.Warn h a ctx msg data ∧
        GormLogger.Error h1 a ctx msg data = GormLogger.Error h a ctx msg data) ∧
      (∀ (ctx : GoContext) (now begin : Int) (fc : Unit → String × Int)
          (err : Option GoError),
        GormLogger.Trace h1 a ctx now begin fc err =
          GormLogger.Trace h a ctx now begin fc err) := by
  have hold := Heap.deref_alloc_old h
    { LogLevel := v
      SlowThreshold := cfg.SlowThreshold
      IgnoreRecordNotFoundError := cfg.IgnoreRecordNotFoundError }
  refine ⟨(h.alloc
      { LogLevel := v
        SlowThreshold := cfg.SlowThreshold
        IgnoreRecordNotFoundError := cfg.IgnoreRecordNotFoundError }).1,
    { logger := a.logger
      config := (h.alloc
        { LogLevel := v
          SlowThreshold := cfg.SlowThreshold
          IgnoreRecordNotFoundError := cfg.IgnoreRecordNotFoundError }).2 },
    by simp only [GormLogger.LogMode, hc], ?_, rfl, ?_, ?_, ?_, ?_, ?_⟩
  · exact Heap.deref_alloc_new h _
  · exact Heap.alloc_fresh h
      { LogLevel := v
        SlowThreshold := cfg.SlowThreshold
        IgnoreRecordNotFoundError := cfg.IgnoreRecordNotFoundError } cfg a.config hc
  · exact hold cfg a.config hc
  · intro p c hp
    exact hold c p hp
  · intro ctx msg data
    simp only [GormLogger.Info, GormLogger.Warn, GormLogger.Error, hold cfg a.config hc, hc,
      and_self]
  · intro ctx now begin fc err
    simp only [GormLogger.Trace, hold cfg a.config hc, hc]

/-- Switching the default adapter of the sample store to silent. -/
theorem C6_logmode_frame_witness :
    sampleHeap.deref sampleAdapter.config = some DefaultGormConfig ∧
    ∃ h1 b, GormLogger.LogMode sampleHeap sampleAdapter gormlogger.Silent = some (h1, b) ∧
      h1.deref b.config = some
        { LogLevel := gormlogger.Silent
          SlowThreshold := DefaultGormConfig.SlowThreshold
          IgnoreRecordNotFoundError := DefaultGormConfig.IgnoreRecordNotFoundError } ∧
      b.logger = sampleAdapter.logger ∧
      b.config ≠ sampleAdapter.config ∧
      h1.deref sampleAdapter.config = some DefaultGormConfig ∧
      (∀ p c, sampleHeap.deref p = some c → h1.deref p = some c) ∧
      (∀ (ctx : GoContext) (msg : String) (data : List GoValue),
        GormLogger.Info h1 sampleAdapter ctx msg data =
          GormLogger.Info sampleHeap sampleAdapter ctx msg data ∧
        GormLogger.Warn h1 sampleAdapter ctx msg data =
          GormLogger.Warn sampleHeap sampleAdapter ctx msg data ∧
        GormLogger.Error h1 sampleAdapter ctx msg data =
          GormLogger.Error sampleHeap sampleAdapter ctx msg data) ∧
      (∀ (ctx : GoContext) (now begin : Int) (fc : Unit → String × Int)
          (err : Option GoError),
        GormLogger.Trace h1 sampleAdapter ctx now begin fc err =
          GormLogger.Trace sampleHeap sampleAdapter ctx now begin fc err) :=
  ⟨rfl, C6_logmode_frame sampleHeap sampleAdapter DefaultGormConfig gormlogger.Silent rfl⟩

/-- C8: for every context, `extractContextFields` returns, in the order
request_id, user_id, tenant_id, correlation_id, exactly one field for each of
those keys that holds a value of the expected type (string for request_id and
correlation_id, `uint` for user_id and tenant_id), carrying that value; a key
absent from the context contributes no field, and a context holding none of
the four keys yields the empty list. -/
theorem C8_context_fields (ctx : GoContext) :
    GormLogger.extractContextFields ctx =
      ["request_id", "user_id", "tenant_id", "correlation_id"].filterMap
        (expectedContextField ctx) ∧
    (∀ s, ctx "request_id" = some (.str s) →
      (⟨"request_id", .string s⟩ : Field) ∈ GormLogger.extractContextFields ctx) ∧
    (∀ n, ctx "user_id" = some (.uint n) →
      (⟨"user_id", .uint n⟩ : Field) ∈ GormLogger.extractContextFields ctx) ∧
    (∀ n, ctx "tenant_id" = some (.uint n) →
      (⟨"tenant_id", .uint n⟩ : Field) ∈ GormLogger.extractContextFields ctx) ∧
    (∀ s, ctx "correlation_id" = some (.str s) →
      (⟨"correlation_id", .string s⟩ : Field) ∈ GormLogger.extractContextFields ctx) ∧
    (∀ k, ctx k = none → ∀ f ∈ GormLogger.extractContextFields ctx, f.key ≠ k) ∧
    (ctx "request_id" = none → ctx "user_id" = none → ctx "tenant_id" = none →
      ctx "correlation_id" = none → GormLogger.extractContextFields ctx = []) := by
  have heq := extractContextFields_eq ctx
  refine ⟨?_, ?_, ?_, ?_, ?_, ?_, ?_⟩
  · rw [heq]
    simp only [List.filterMap_cons, List.filterMap_nil]
    cases expectedContextField ctx "request_id" <;> cases expectedContextField ctx "user_id" <;>
      cases expectedContextField ctx "tenant_id" <;>
      cases expectedContextField ctx "correlation_id" <;> rfl
  · intro s hs
    rw [heq]
    simp [expectedContextField, hs]
  · intro n hn
    rw [heq]
    simp [expectedContextField, hn]
  · intro n hn
    rw [heq]
    simp [expectedContextField, hn]
  · intro s hs
    rw [heq]
    simp [expectedContextField, hs]
  · intro k hk f hf hfk
    obtain ⟨_, he⟩ := extractContextFields_keys ctx f hf
    rw [hfk] at he
    simp only [expectedContextField, hk] at he
    split_ifs at he
  · intro h1 h2 h3 h4
    rw [heq]
    simp [expectedContextField, h1, h2, h3, h4]

/-- The sample context holds a request ID and no tenant ID. -/
theorem C8_context_fields_witness :
    (sampleCtx "request_id" = some (.str "abc-123") ∧
      (⟨"request_id", .string "abc-123"⟩ : Field) ∈
        GormLogger.extractContextFields sampleCtx) ∧
    (sampleCtx "tenant_id" = none ∧
      ∀ f ∈ GormLogger.extractContextFields sampleCtx, f.key ≠ "tenant_id") :=
  ⟨⟨rfl, (C8_context_fields sampleCtx).2.1 "abc-123" rfl⟩,
    ⟨rfl, (C8_context_fields sampleCtx).2.2.2.2.2.1 "tenant_id" rfl⟩⟩

/-! ## The request log middleware set -/

/-- C4: for every final status and every list of errors accumulated on the
request, `HTTPLogger` invokes the continuation once and then hands to the
logger: for status >= 500, error-severity entries only, one per accumulated
error when there are any (the i-th entry carrying the standard fields plus the
i-th error and no other error) and one entry without an error when there are
none; for status 400 to 499, the same at warn severity; otherwise one entry at
info severity.  Status 503 with two accumulated errors gives exactly two
error-severity entries, each carrying its own error. -/
theorem C4_http_logger_routing (next : Context → Context) (start now : Int) (c : Context) :
    (HTTPLogger next start now c).nextCalls = 1 ∧
    (HTTPLogger next start now c).ctx = next c ∧
    fieldErrors (HTTPLogger.fields c.Path c.RawQuery (timeSince now start) (next c)) = [] ∧
    ((next c).Status ≥ 500 →
      (∀ e ∈ (HTTPLogger next start now c).entries, e.level = Level.ErrorLevel) ∧
      ((next c).Errors ≠ [] →
        (HTTPLogger next start now c).entries =
          (next c).Errors.map (fun err => ⟨Level.ErrorLevel, "HTTP request server error",
            HTTPLogger.fields c.Path c.RawQuery (timeSince now start) (next c) ++
              [⟨"error", .error err⟩]⟩) ∧
        (HTTPLogger next start now c).entries.length = (next c).Errors.length ∧
        (HTTPLogger next start now c).entries.map errorsOf =
          (next c).Errors.map (fun err => [err])) ∧
      ((next c).Errors = [] →
        (HTTPLogger next start now c).entries =
          [⟨Level.ErrorLevel, "HTTP request server error",
            HTTPLogger.fields c.Path c.RawQuery (timeSince now start) (next c)⟩] ∧
        (HTTPLogger next start now c).entries.map errorsOf = [[]])) ∧
    (400 ≤ (next c).Status ∧ (next c).Status ≤ 499 →
      (∀ e ∈ (HTTPLogger next start now c).entries, e.level = Level.WarnLevel) ∧
      ((next c).Errors ≠ [] →
        (HTTPLogger next start now c).entries =
          (next c).Errors.map (fun err => ⟨Level.WarnLevel, "HTTP request client error",
            HTTPLogger.fields c.Path c.RawQuery (timeSince now start) (next c) ++
              [⟨"error", .error err⟩]⟩) ∧
        (HTTPLogger next start now c).entries.length = (next c).Errors.length ∧
        (HTTPLogger next start now c).entries.map errorsOf =
          (next c).Errors.map (fun err => [err])) ∧
      ((next c).Errors = [] →
        (HTTPLogger next start now c).entries =
          [⟨Level.WarnLevel, "HTTP request client error",
            HTTPLogger.fields c.Path c.RawQuery (timeSince now start) (next c)⟩] ∧
        (HTTPLogger next start now c).entries.map errorsOf = [[]])) ∧
    ((next c).Status < 400 →
      (HTTPLogger next start now c).entries =
        [⟨Level.InfoLevel, "HTTP request completed",
          HTTPLogger.fields c.Path c.RawQuery (timeSince now start) (next c)⟩]) ∧
    ((next c).Status = 503 → ∀ e1 e2, (next c).Errors = [e1, e2] →
      (HTTPLogger next start now c).entries =
        [ ⟨Level.ErrorLevel, "HTTP request server error",
            HTTPLogger.fields c.Path c.RawQuery (timeSince now start) (next c) ++
              [⟨"error", .error e1⟩]⟩,
          ⟨Level.ErrorLevel, "HTTP request server error",
            HTTPLogger.fields c.Path c.RawQuery (timeSince now start) (next c) ++
              [⟨"error", .error e2⟩]⟩ ] ∧
      (HTTPLogger next start now c).entries.map errorsOf = [[e1], [e2]]) := by
  have hnoerr := HTTPLogger.fields_no_error c.Path c.RawQuery (timeSince now start) (next c)
  have herrs : ∀ (lvl : Level) (m : String) (errs : List GoError),
      (errs.map (fun err => (⟨lvl, m,
        HTTPLogger.fields c.Path c.RawQuery (timeSince now start) (next c) ++
          [⟨"error", .error err⟩]⟩ : Entry))).map errorsOf = errs.map (fun err => [err]) := by
    intro lvl m errs
    rw [List.map_map]
    apply List.map_congr_left
    intro err _
    simp only [Function.comp, errorsOf, fieldErrors, List.filterMap_append] at hnoerr ⊢
    rw [hnoerr]
    rfl
  have hshape : HTTPLogger next start now c =
      { ctx := next c
        entries :=
          if (next c).Status ≥ 500 then
            if (next c).Errors.length > 0 then
              (next c).Errors.map (fun err => ⟨Level.ErrorLevel, "HTTP request server error",
                HTTPLogger.fields c.Path c.RawQuery (timeSince now start) (next c) ++
                  [⟨"error", .error err⟩]⟩)
            else [⟨Level.ErrorLevel, "HTTP request server error",
                HTTPLogger.fields c.Path c.RawQuery (timeSince now start) (next c)⟩]
          else if (next c).Status ≥ 400 then
            if (next c).Errors.length > 0 then
              (next c).Errors.map (fun err => ⟨Level.WarnLevel, "HTTP request client error",
                HTTPLogger.fields c.Path c.RawQuery (timeSince now start) (next c) ++
                  [⟨"error", .error err⟩]⟩)
            else [⟨Level.WarnLevel, "HTTP request client error",
                HTTPLogger.fields c.Path c.RawQuery (timeSince now start) (next c)⟩]
          else [⟨Level.InfoLevel, "HTTP request completed",
                HTTPLogger.fields c.Path c.RawQuery (timeSince now start) (next c)⟩]
        nextCalls := 1 } := by
    simp only [HTTPLogger, Run.Next, foldl_log_entries, Logger.Error, Logger.Warn, Logger.Info,
      Fields.Error, zapError, List.nil_append, Nat.zero_add]
    split_ifs <;> rfl
  have hpos : ∀ errs : List GoError, errs ≠ [] → errs.length > 0 := fun errs he =>
    List.length_pos.mpr he
  rw [hshape]
  refine ⟨rfl, rfl, hnoerr, ?_, ?_, ?_, ?_⟩
  · intro h5
    refine ⟨?_, ?_, ?_⟩
    · intro e he
      simp only [h5, if_true] at he
      split_ifs at he
      · obtain ⟨_, _, rfl⟩ := List.mem_map.mp he
        rfl
      · rw [List.mem_singleton] at he
        subst he
        rfl
    · intro hne
      simp only [h5, hpos _ hne, if_true]
      exact ⟨trivial, by rw [List.length_map], herrs _ _ _⟩
    · intro hnil
      simp only [h5, hnil, List.length_nil, gt_iff_lt, lt_self_iff_false, if_true, if_false,
        List.map_cons, List.map_nil, errorsOf, hnoerr, true_and]
  · rintro ⟨h4, h499⟩
    have h5 : ¬ (next c).Status ≥ 500 := by omega
    have h4g : (next c).Status ≥ 400 := h4
    refine ⟨?_, ?_, ?_⟩
    · intro e he
      simp only [h5, h4g, if_true, if_false] at he
      split_ifs at he
      · obtain ⟨_, _, rfl⟩ := List.mem_map.mp he
        rfl
      · rw [List.mem_singleton] at he
        subst he
        rfl
    · intro hne
      simp only [h5, h4g, hpos _ hne, if_true, if_false]
      exact ⟨trivial, by rw [List.length_map], herrs _ _ _⟩
    · intro hnil
      simp only [h5, h4g, hnil, List.length_nil, gt_iff_lt, lt_self_iff_false, if_true,
        if_false, List.map_cons, List.map_nil, errorsOf, hnoerr, true_and]
  · intro hlt
    have h5 : ¬ (next c).Status ≥ 500 := by omega
    have h4 : ¬ (next c).Status ≥ 400 := by omega
    simp only [h5, h4, if_false]
  · intro h503 e1 e2 he
    have h5 : (next c).Status ≥ 500 := by omega
    have hmap := herrs Level.ErrorLevel "HTTP request server error" [e1, e2]
    simp only [h5, he, List.length_cons, List.length_nil, gt_iff_lt, if_true, List.map_cons,
      List.map_nil] at hmap ⊢
    exact ⟨by simp, by simpa using hmap⟩

/-- A request answered with status 503 after two recorded errors. -/
theorem C4_http_logger_routing_witness :
    (sampleFailingHandlers sampleRequest).Status = 503 ∧
    (sampleFailingHandlers sampleRequest).Errors = [.leaf "db down", .leaf "cache down"] ∧
    (HTTPLogger sampleFailingHandlers 0 5 sampleRequest).entries =
      [ ⟨Level.ErrorLevel, "HTTP request server error",
          HTTPLogger.fields sampleRequest.Path sampleRequest.RawQuery (timeSince 5 0)
              (sampleFailingHandlers sampleRequest) ++
            [⟨"error", .error (.leaf "db down")⟩]⟩,
        ⟨Level.ErrorLevel, "HTTP request server error",
          HTTPLogger.fields sampleRequest.Path sampleRequest.RawQuery (timeSince 5 0)
              (sampleFailingHandlers sampleRequest) ++
            [⟨"error", .error (.leaf "cache down")⟩]⟩ ] ∧
    (HTTPLogger sampleFailingHandlers 0 5 sampleRequest).entries.map errorsOf =
      [[.leaf "db down"], [.leaf "cache down"]] :=
  ⟨rfl, rfl,
    (C4_http_logger_routing sampleFailingHandlers 0 5 sampleRequest).2.2.2.2.2.2 rfl
      (.leaf "db down") (.leaf "cache down") rfl⟩

/-- C9, as amended: for every recovered fault value and every request scope,
the fault handler of `Recovery` hands exactly one entry to the logger, at error
severity, carrying the fault value, path, method, client address and, when the
scope holds one as a string, the request ID; it calls `c.JSON` with status 500
and the object error = "Internal server error", request_id = the request ID of
the scope ("" when none is stored), timestamp, which appends that object to the
response body; when nothing of the response has been written before, the
response gets status 500, and a response already written keeps its status; and
the response is the same for any two fault values. -/
theorem C9_recovery_response (encodedLen : JSONObject → Nat) (timestamp : String)
    (c : Context) (recovered : GoValue) :
    (Recovery encodedLen timestamp c recovered).entries =
      [⟨Level.ErrorLevel, "HTTP request panic recovered",
        [ zapAny "panic" recovered,
          ⟨"http_path", .string c.Path⟩,
          ⟨"http_method", .string c.Method⟩,
          ⟨"client_ip", .string c.ClientIP⟩ ] ++
        (match c.Keys "request_id" with
          | some (.str id) => [⟨"request_id", .string id⟩]
          | _ => [])⟩] ∧
    (Recovery encodedLen timestamp c recovered).nextCalls = 0 ∧
    (Recovery encodedLen timestamp c recovered).ctx.Body = c.Body ++
      [.json [ ("error", "Internal server error"),
               ("request_id", c.GetString "request_id"),
               ("timestamp", timestamp) ]] ∧
    (c.Size = -1 →
      (Recovery encodedLen timestamp c recovered).ctx.Status = 500 ∧
      (Recovery encodedLen timestamp c recovered).ctx.Size =
        (encodedLen [ ("error", "Internal server error"),
                      ("request_id", c.GetString "request_id"),
                      ("timestamp", timestamp) ] : Int)) ∧
    (c.Size ≠ -1 →
      (Recovery encodedLen timestamp c recovered).ctx.Status = c.Status ∧
      (Recovery encodedLen timestamp c recovered).ctx.Size = c.Size +
        (encodedLen [ ("error", "Internal server error"),
                      ("request_id", c.GetString "request_id"),
                      ("timestamp", timestamp) ] : Int)) ∧
    (c.Header "Content-Type" = none →
      (Recovery encodedLen timestamp c recovered).ctx.Header "Content-Type" =
        some "application/json; charset=utf-8") ∧
    (∀ s, c.Keys "request_id" = some (.str s) → c.GetString "request_id" = s) ∧
    (c.Keys "request_id" = none → c.GetString "request_id" = "") ∧
    (∀ recovered2 : GoValue,
      (Recovery encodedLen timestamp c recovered2).ctx.Status =
        (Recovery encodedLen timestamp c recovered).ctx.Status ∧
      (Recovery encodedLen timestamp c recovered2).ctx.Body =
        (Recovery encodedLen timestamp c recovered).ctx.Body ∧
      (Recovery encodedLen timestamp c recovered2).ctx.Size =
        (Recovery encodedLen timestamp c recovered).ctx.Size ∧
      (Recovery encodedLen timestamp c recovered2).ctx.Header =
        (Recovery encodedLen timestamp c recovered).ctx.Header) := by
  obtain ⟨hB, hS, hZ, hH, _⟩ := Context.JSON_500 encodedLen c
    [ ("error", "Internal server error"),
      ("request_id", c.GetString "request_id"),
      ("timestamp", timestamp) ]
  have hctx : ∀ v : GoValue, (Recovery encodedLen timestamp c v).ctx =
      c.JSON encodedLen 500
        [ ("error", "Internal server error"),
          ("request_id", c.GetString "request_id"),
          ("timestamp", timestamp) ] := fun _ => rfl
  refine ⟨?_, rfl, ?_, ?_, ?_, ?_, ?_, ?_, ?_⟩
  · simp only [Recovery, Logger.Error, Fields.HTTPPath, Fields.HTTPMethod, Fields.ClientIP,
      Fields.RequestID, zapString, List.nil_append]
    split <;> rfl
  · rw [hctx]
    exact hB
  · intro hs
    rw [hctx, hS, hZ]
    simp [hs]
  · intro hs
    rw [hctx, hS, hZ]
    simp [hs]
  · intro hct
    rw [hctx, hH, hct]
    simp
  · intro s hs
    simp only [Context.GetString, hs]
  · intro hn
    simp only [Context.GetString, hn]
  · intro v
    rw [hctx v, hctx recovered]
    exact ⟨rfl, rfl, rfl, rfl⟩

/-- A fault in a fresh request whose scope holds the request ID abc-123. -/
theorem C9_recovery_response_witness :
    sampleRequest.Size = -1 ∧
    sampleRequest.Keys "request_id" = some (.str "abc-123") ∧
    sampleRequest.GetString "request_id" = "abc-123" ∧
    ((Recovery sampleEncodedLen "2024-01-01T00:00:00Z" sampleRequest (.str "boom")).ctx.Status =
        500 ∧
      (Recovery sampleEncodedLen "2024-01-01T00:00:00Z" sampleRequest (.str "boom")).ctx.Size =
        (sampleEncodedLen [ ("error", "Internal server error"),
                            ("request_id", sampleRequest.GetString "request_id"),
                            ("timestamp", "2024-01-01T00:00:00Z") ] : Int)) ∧
    (Recovery sampleEncodedLen "2024-01-01T00:00:00Z" sampleRequest (.str "boom")).ctx.Body =
      sampleRequest.Body ++
        [.json [ ("error", "Internal server error"),
                 ("request_id", sampleRequest.GetString "request_id"),
                 ("timestamp", "2024-01-01T00:00:00Z") ]] :=
  ⟨rfl, rfl,
    (C9_recovery_response sampleEncodedLen "2024-01-01T00:00:00Z" sampleRequest
      (.str "boom")).2.2.2.2.2.2.1 "abc-123" rfl,
    (C9_recovery_response sampleEncodedLen "2024-01-01T00:00:00Z" sampleRequest
      (.str "boom")).2.2.2.1 rfl,
    (C9_recovery_response sampleEncodedLen "2024-01-01T00:00:00Z" sampleRequest
      (.str "boom")).2.2.1⟩

/-- A handler that has written status 200 and part of the body and then
faults: the response keeps status 200 and the error object follows the bytes
already written, so the response is not a 500 response with that object as
its body. -/
theorem C9_written_response_keeps_status :
    sampleWritten.Status = 200 ∧ sampleWritten.Size = 7 ∧
    (Recovery sampleEncodedLen "2024-01-01T00:00:00Z" sampleWritten (.str "boom")).ctx.Status =
      200 ∧
    (Recovery sampleEncodedLen "2024-01-01T00:00:00Z" sampleWritten (.str "boom")).ctx.Status ≠
      500 ∧
    (Recovery sampleEncodedLen "2024-01-01T00:00:00Z" sampleWritten (.str "boom")).ctx.Body =
      [ .raw "partial",
        .json [ ("error", "Internal server error"),
                ("request_id", "abc-123"),
                ("timestamp", "2024-01-01T00:00:00Z") ] ] := by
  refine ⟨rfl, rfl, ?_, ?_, ?_⟩ <;>
    simp [Recovery, Context.JSON, bodyAllowedForStatus, Context.Write, Context.WriteHeaderNow,
      Context.writeContentType, Context.WriteHeader, Context.Written, Context.HeaderSet,
      Context.GetString, sampleWritten, sampleRequest]

/-- C10, as amended: for every request, `CORS` sets the four fixed response
headers; for method OPTIONS it calls `c.AbortWithStatus(204)`, writes nothing
to the body and does not invoke the continuation: the pending handlers are
skipped, a response of which nothing has been written gets status 204 and an
empty body (size 0), and a response already written keeps its status and size;
for every other method it invokes the continuation exactly once, on a context
in which the four headers are set and nothing else of the response is changed,
so that they are set in the result whenever the remaining handlers leave them
alone. -/
theorem C10_cors_headers_and_preflight (next : Context → Context) (c : Context) :
    (c.Method = "OPTIONS" →
      (CORS next c).nextCalls = 0 ∧
      (CORS next c).ctx.aborted = true ∧
      (CORS next c).ctx.Body = c.Body ∧
      (∀ kv ∈ corsHeaders, (CORS next c).ctx.Header kv.1 = some kv.2) ∧
      (c.Size = -1 → (CORS next c).ctx.Status = 204 ∧ (CORS next c).ctx.Size = 0) ∧
      (c.Size ≠ -1 →
        (CORS next c).ctx.Status = c.Status ∧ (CORS next c).ctx.Size = c.Size)) ∧
    (c.Method ≠ "OPTIONS" →
      (CORS next c).nextCalls = 1 ∧
      ∃ c0 : Context, (CORS next c).ctx = next c0 ∧
        (∀ kv ∈ corsHeaders, c0.Header kv.1 = some kv.2) ∧
        c0.Method = c.Method ∧ c0.Status = c.Status ∧ c0.Size = c.Size ∧ c0.Body = c.Body ∧
        c0.aborted = c.aborted ∧
        ((∀ x : Context, ∀ kv ∈ corsHeaders, (next x).Header kv.1 = x.Header kv.1) →
          ∀ kv ∈ corsHeaders, (CORS next c).ctx.Header kv.1 = some kv.2)) := by
  have hshape := CORS_eq next c
  have hset := setCorsHeaders_lookup c
  have hsize : (setCorsHeaders c).Size = c.Size := by
    simp only [setCorsHeaders, Context.HeaderSet]
  have hstatus : (setCorsHeaders c).Status = c.Status := by
    simp only [setCorsHeaders, Context.HeaderSet]
  have hbody : (setCorsHeaders c).Body = c.Body := by
    simp only [setCorsHeaders, Context.HeaderSet]
  constructor
  · intro hm
    obtain ⟨hA, hB, hH, hS, hZ⟩ := Context.AbortWithStatus_204 (setCorsHeaders c)
    rw [hshape, if_pos hm]
    refine ⟨rfl, hA, by rw [hB, hbody], ?_, ?_, ?_⟩
    · intro kv hkv
      show ((setCorsHeaders c).AbortWithStatus 204).Header kv.1 = some kv.2
      rw [hH]
      exact hset kv hkv
    · intro hs
      show ((setCorsHeaders c).AbortWithStatus 204).Status = 204 ∧
        ((setCorsHeaders c).AbortWithStatus 204).Size = 0
      rw [hS, hZ, hsize]
      simp [hs]
    · intro hs
      show ((setCorsHeaders c).AbortWithStatus 204).Status = c.Status ∧
        ((setCorsHeaders c).AbortWithStatus 204).Size = c.Size
      rw [hS, hZ, hsize, hstatus]
      simp [hs]
  · intro hm
    rw [hshape, if_neg hm]
    simp only [true_and]
    refine ⟨setCorsHeaders c, rfl, hset, ?_, hstatus, hsize, hbody, ?_, ?_⟩
    · simp only [setCorsHeaders, Context.HeaderSet]
    · simp only [setCorsHeaders, Context.HeaderSet]
    · intro hpres kv hkv
      rw [hpres _ kv hkv]
      exact hset kv hkv

/-- A fresh preflight request and a GET request. -/
theorem C10_cors_headers_and_preflight_witness :
    (samplePreflight.Method = "OPTIONS" ∧ samplePreflight.Size = -1 ∧
      (CORS sampleFailingHandlers samplePreflight).nextCalls = 0 ∧
      (CORS sampleFailingHandlers samplePreflight).ctx.Body = samplePreflight.Body ∧
      (CORS sampleFailingHandlers samplePreflight).ctx.Status = 204 ∧
      (CORS sampleFailingHandlers samplePreflight).ctx.Size = 0) ∧
    (sampleRequest.Method ≠ "OPTIONS" ∧
      (CORS sampleFailingHandlers sampleRequest).nextCalls = 1) :=
  ⟨⟨rfl, rfl,
      ((C10_cors_headers_and_preflight sampleFailingHandlers samplePreflight).1 rfl).1,
      ((C10_cors_headers_and_preflight sampleFailingHandlers samplePreflight).1 rfl).2.2.1,
      (((C10_cors_headers_and_preflight sampleFailingHandlers samplePreflight).1
        rfl).2.2.2.2.1 rfl).1,
      (((C10_cors_headers_and_preflight sampleFailingHandlers samplePreflight).1
        rfl).2.2.2.2.1 rfl).2⟩,
    ⟨by decide,
      ((C10_cors_headers_and_preflight sampleFailingHandlers sampleRequest).2 (by decide)).1⟩⟩

/-- A preflight request on which status 200 has already been written: `CORS`
skips the pending handlers and the response keeps status 200, so it does not
get status 204. -/
theorem C10_written_preflight_keeps_status :
    sampleWrittenPreflight.Method = "OPTIONS" ∧
    sampleWrittenPreflight.Status = 200 ∧ sampleWrittenPreflight.Size = 7 ∧
    (CORS sampleFailingHandlers sampleWrittenPreflight).nextCalls = 0 ∧
    (CORS sampleFailingHandlers sampleWrittenPreflight).ctx.Status = 200 ∧
    (CORS sampleFailingHandlers sampleWrittenPreflight).ctx.Status ≠ 204 := by
  refine ⟨rfl, rfl, rfl, ?_, ?_, ?_⟩ <;>
    simp [CORS, Context.AbortWithStatus, Context.Abort, Context.WriteHeaderNow,
      Context.WriteHeader, Context.Written, Context.HeaderSet, sampleWrittenPreflight,
      sampleWritten, sampleRequest]

end Logging
